import Mathlib

/- Shallow embedding of `substack_scraper.py`.

   Pure Python functions become Lean functions of the same name; the network
   is modelled by oracles (per-attempt outcomes, per-post metadata results),
   and the filesystem by a map from path to CSV content.  Machine-level
   caveats are noted next to each definition. -/

set_option maxRecDepth 10000

/- ## Generic string helpers (models of Python `in`, `str.lower`, strips).
   All are structural recursions over `List Char`, so concrete instances
   reduce inside the kernel. -/

def listIsPrefixOf : List Char → List Char → Bool
  | [], _ => true
  | _ :: _, [] => false
  | a :: as, b :: bs => a = b && listIsPrefixOf as bs

def containsSubAux (needle : List Char) : List Char → Bool
  | [] => listIsPrefixOf needle []
  | c :: rest => listIsPrefixOf needle (c :: rest) || containsSubAux needle rest

/-- Model of Python `sub in s` (substring containment). -/
def strContains (s sub : String) : Bool := containsSubAux sub.data s.data

/-- Split at the first occurrence of `needle`: `some (before, after)`, or
`none` when `needle` does not occur.  Models `s.split(needle)[0]` /
`s.split(needle, 1)[1]` and the scheme/rest split of `urlparse`. -/
def splitFirstAux (needle : List Char) : List Char → Option (List Char × List Char)
  | [] => if needle = [] then some ([], []) else none
  | c :: rest =>
    if listIsPrefixOf needle (c :: rest) then some ([], (c :: rest).drop needle.length)
    else
      match splitFirstAux needle rest with
      | none => none
      | some (pre, post) => some (c :: pre, post)

/-- Split on every occurrence of a single separator character (models
`str.split(sep)` for one-character separators). -/
def splitChar (sep : Char) : List Char → List (List Char)
  | [] => [[]]
  | c :: rest =>
    if c = sep then [] :: splitChar sep rest
    else
      match splitChar sep rest with
      | [] => [[c]]
      | g :: gs => (c :: g) :: gs

/-- Model of Python `str.lower` (ASCII-adequate for the markers searched). -/
def strLower (s : String) : String := String.mk (s.data.map Char.toLower)

/- ## Backoff Executor: `retry_with_backoff` (source lines 37-60) -/

def DEFAULT_MAX_RETRIES : Nat := 8

def MAX_BACKOFF_WAIT_TIME : Nat := 60

/-- The rate-limit classification of line 47: the lowered error text contains
`429`, `rate limit` or `too many requests`. -/
def isRateLimitError (e : String) : Bool :=
  let l := strLower e
  strContains l "429" || strContains l "rate limit" || strContains l "too many requests"

/-- Result of `retry_with_backoff`: either the wrapped operation's value, or
one of the string sentinels the Python function returns instead of raising. -/
inductive RetryResult (α : Type) where
  | ok (a : α)
  | sentinel (s : String)
deriving DecidableEq

/-- The `for attempt in range(max_retries)` loop of lines 40-58.  `attempts i`
is the oracle for what the wrapped zero-argument operation does on its i-th
call: return a value or raise an exception whose `str` is the given string.
The recursion is on the number of remaining loop iterations, so the current
zero-indexed attempt is `maxRetries - remaining`.  Alongside the result we
collect the list of `time.sleep` durations performed (line 50-52). -/
def retryAux {α : Type} (attempts : Nat → Except String α) (maxRetries : Nat) :
    Nat → RetryResult α × List Nat
  | 0 => (RetryResult.sentinel "Failed after retries", [])
  | r + 1 =>
    let attempt := maxRetries - (r + 1)
    match attempts attempt with
    | Except.ok v => (RetryResult.ok v, [])
    | Except.error e =>
      if isRateLimitError e then
        if 0 < r then
          let p := retryAux attempts maxRetries r
          (p.1, min (2 ^ attempt) MAX_BACKOFF_WAIT_TIME :: p.2)
        else (RetryResult.sentinel "Rate limited", [])
      else (RetryResult.sentinel ("Error: " ++ e), [])

/-- `retry_with_backoff` (lines 37-60): run the loop with `maxRetries`
iterations remaining.  Note `if 0 < r` in `retryAux` is exactly the source's
`attempt < max_retries - 1` since `attempt = maxRetries - (r+1)`. -/
def retry_with_backoff {α : Type} (attempts : Nat → Except String α)
    (maxRetries : Nat) : RetryResult α × List Nat :=
  retryAux attempts maxRetries maxRetries

/- ## Metric Enricher: `calculate_likes_per_free_subscriber` (lines 336-347) -/

/-- Model of `str.replace(',', '')`. -/
def stripCommas (s : String) : String := String.mk (s.data.filter (fun c => c ≠ ','))

def digitsVal (l : List Char) : Nat := l.foldl (fun a c => a * 10 + (c.toNat - 48)) 0

def trimWS (l : List Char) : List Char :=
  ((l.dropWhile Char.isWhitespace).reverse.dropWhile Char.isWhitespace).reverse

/-- Digits with an optional decimal point, value as a rational.  The value is
assembled with `mkRat` (a reduced fraction `whole-and-fraction / 10^k`), so
that concrete runs reduce inside the kernel. -/
def pyFloatBody (body : List Char) : Option ℚ :=
  let ip := body.takeWhile Char.isDigit
  let rest := body.drop ip.length
  match rest with
  | [] => if ip = [] then none else some (mkRat (digitsVal ip) 1)
  | c :: fpart =>
    if c = '.' then
      let fp := fpart.takeWhile Char.isDigit
      if fpart.length = fp.length ∧ (ip ≠ [] ∨ fp ≠ []) then
        some (mkRat (digitsVal ip * 10 ^ fp.length + digitsVal fp) (10 ^ fp.length))
      else none
    else none

/-- Model of Python `float(s)` on the plain decimal forms (optional
whitespace, optional sign, digits with an optional fraction).  Exponent,
underscore, `inf` and `nan` literals are outside the modelled domain:
subscriber counts are plain digit strings with thousands separators. -/
def pyFloat (s : String) : Option ℚ :=
  match trimWS s.data with
  | [] => none
  | c :: rest =>
    if c = '-' then (pyFloatBody rest).map (fun q => -q)
    else if c = '+' then pyFloatBody rest
    else pyFloatBody (c :: rest)

/-- Round to the nearest integer, ties to even — the rounding rule of Python
`round`.  (We model `round(x, 2)` over exact rationals; binary floating-point
representation error is outside the embedding, and the code model and the
spec formula use this same idealized rounding.)  `r2 < den` is the statement
`x - floor x < 1/2` scaled by `2 * x.den`, which is positive. -/
def roundHalfEven (x : ℚ) : ℤ :=
  let f : ℤ := Rat.floor x
  let r2 : ℤ := 2 * (x.num - f * (x.den : ℤ))
  if r2 < (x.den : ℤ) then f
  else if (x.den : ℤ) < r2 then f + 1
  else if f % 2 = 0 then f else f + 1

/-- `round(x, 2)`: scale by 100 (the `divInt` term equals `x * 100`, see
`round2_scale_eq`), round ties-to-even, and descale. -/
def round2 (x : ℚ) : ℚ := mkRat (roundHalfEven (Rat.divInt (x.num * 100) (x.den : ℤ))) 100

/-- The value of the `likes_per_free_subscriber` field: either the `UNKNOWN`
sentinel propagated from the subscriber count, or a number. -/
inductive RatioVal where
  | unknownCount
  | val (q : ℚ)
deriving DecidableEq

instance exceptDecEq {ε α : Type} [DecidableEq ε] [DecidableEq α] :
    DecidableEq (Except ε α) := fun x y =>
  match x, y with
  | Except.error a, Except.error b =>
    if h : a = b then isTrue (by rw [h]) else isFalse (fun hc => h (by injection hc))
  | Except.ok a, Except.ok b =>
    if h : a = b then isTrue (by rw [h]) else isFalse (fun hc => h (by injection hc))
  | Except.error _, Except.ok _ => isFalse (fun hc => Except.noConfusion hc)
  | Except.ok _, Except.error _ => isFalse (fun hc => Except.noConfusion hc)

/-- `calculate_likes_per_free_subscriber` (lines 336-347).  `likes` is the
integer `reaction_count`.  A raised exception is an `Except.error` carrying
the Python exception text: the explicit `ValueError` of line 345, or the
`ZeroDivisionError` that `likes / 0.0` raises on line 347.  The `divInt`
term is exactly `100 * (likes / subscriber_num)` (see `ratio_formula_eq`);
it is written as one reduced fraction so the kernel can evaluate it. -/
def calculate_likes_per_free_subscriber (likes : ℤ) (free_subscriber_count : String) :
    Except String RatioVal :=
  if free_subscriber_count = "UNKNOWN" then Except.ok RatioVal.unknownCount
  else
    let subscriber_count := stripCommas free_subscriber_count
    match pyFloat subscriber_count with
    | none => Except.error ("Invalid subscriber count: " ++ subscriber_count)
    | some subscriber_num =>
      if subscriber_num = 0 then Except.error "float division by zero"
      else
        Except.ok (RatioVal.val (round2
          (Rat.divInt (100 * likes * (subscriber_num.den : ℤ)) subscriber_num.num)))

/-- Sanity of the fraction written inside `round2`: it is `x * 100`. -/
theorem round2_scale_eq (x : ℚ) : Rat.divInt (x.num * 100) (x.den : ℤ) = x * 100 := by
  conv_rhs => rw [← Rat.num_div_den x]
  rw [Rat.divInt_eq_div]
  have h : ((x.den : ℤ) : ℚ) ≠ 0 := by
    exact_mod_cast Rat.den_ne_zero x
  push_cast
  field_simp

/-- Sanity of the fraction written inside the enricher: for a nonzero
subscriber count it is exactly the source's `100 * (likes / subscriber_num)`. -/
theorem ratio_formula_eq (likes : ℤ) (q : ℚ) (hq : q ≠ 0) :
    Rat.divInt (100 * likes * (q.den : ℤ)) q.num = 100 * ((likes : ℚ) / q) := by
  have hnum : ((q.num : ℤ) : ℚ) ≠ 0 := by
    exact_mod_cast Rat.num_ne_zero.mpr hq
  have hden : ((q.den : ℤ) : ℚ) ≠ 0 := by
    exact_mod_cast Rat.den_ne_zero q
  rw [Rat.divInt_eq_div]
  conv_rhs => rw [← Rat.num_div_den q]
  push_cast
  field_simp
  ring

/- ## Dates: `parse_datetime` (lines 68-109) and `strftime` serialization.
   Timestamps are UTC whole seconds since the epoch (`ℤ`); `timedelta(days=1)`
   is `+ 86400`.  All comparisons in the source are between aware UTC
   datetimes, which compare exactly like their epoch values. -/

def isLeapYear (y : Nat) : Bool := (y % 4 = 0 && y % 100 ≠ 0) || y % 400 = 0

def daysInMonth (y m : Nat) : Nat :=
  if m = 2 then (if isLeapYear y then 29 else 28)
  else if m = 4 ∨ m = 6 ∨ m = 9 ∨ m = 11 then 30
  else 31

/-- Days from 1970-01-01 of the civil date `y-m-d` (standard civil-calendar
conversion, valid for years ≥ 1). -/
def daysFromCivil (y m d : Nat) : ℤ :=
  let y' := if m ≤ 2 then y - 1 else y
  let era := y' / 400
  let yoe := y' % 400
  let mp := if 2 < m then m - 3 else m + 9
  let doy := (153 * mp + 2) / 5 + (d - 1)
  let doe := yoe * 365 + yoe / 4 - yoe / 100 + doy
  (era : ℤ) * 146097 + (doe : ℤ) - 719468

def epochOf (y mo d h mi s : Nat) : ℤ :=
  daysFromCivil y mo d * 86400 + ((h * 3600 + mi * 60 + s : Nat) : ℤ)

/-- The calendar validation `datetime` performs (`MINYEAR = 1`,
`MAXYEAR = 9999`, real month lengths). -/
def validYmd (y mo d : Nat) : Bool :=
  1 ≤ y && y ≤ 9999 && 1 ≤ mo && mo ≤ 12 && 1 ≤ d && d ≤ daysInMonth y mo

def allDigits (l : List Char) : Bool := l.all Char.isDigit

/-- A numeric field of `lo` to `hi` digits.  `strptime`'s field regexes
(one-or-two digit month/day/hour/minute/second; exactly four digit year)
combined with their value ranges are equivalent to this digit-count check
plus the explicit range checks below, because the fields here are delimited
by the format's separator characters. -/
def parseNumField (l : List Char) (lo hi : Nat) : Option Nat :=
  if lo ≤ l.length ∧ l.length ≤ hi ∧ allDigits l then some (digitsVal l) else none

def dateFieldsToEpoch (ys ms ds hs mis ss : List Char) : Option ℤ := do
  let y ← parseNumField ys 4 4
  let mo ← parseNumField ms 1 2
  let d ← parseNumField ds 1 2
  let h ← parseNumField hs 1 2
  let mi ← parseNumField mis 1 2
  let s ← parseNumField ss 1 2
  if validYmd y mo d ∧ h ≤ 23 ∧ mi ≤ 59 ∧ s ≤ 59 then some (epochOf y mo d h mi s)
  else none

/-- Format `%Y-%m-%d %H:%M:%S` (modelled with a single literal space; the
result carries `tzinfo=timezone.utc`, i.e. is a plain UTC instant). -/
def parse_ymd_hms (l : List Char) : Option ℤ :=
  match splitChar ' ' l with
  | [dp, tp] =>
    match splitChar '-' dp, splitChar ':' tp with
    | [ys, ms, ds], [hs, mis, ss] => dateFieldsToEpoch ys ms ds hs mis ss
    | _, _ => none
  | _ => none

def dateOnlyToEpoch (ys ms ds : List Char) : Option ℤ := do
  let y ← parseNumField ys 4 4
  let mo ← parseNumField ms 1 2
  let d ← parseNumField ds 1 2
  if validYmd y mo d then some (epochOf y mo d 0 0 0) else none

/-- Format `%Y-%m-%d`. -/
def parse_ymd_dash (l : List Char) : Option ℤ :=
  match splitChar '-' l with
  | [ys, ms, ds] => dateOnlyToEpoch ys ms ds
  | _ => none

/-- Format `%Y/%m/%d`. -/
def parse_ymd_slash (l : List Char) : Option ℤ :=
  match splitChar '/' l with
  | [ys, ms, ds] => dateOnlyToEpoch ys ms ds
  | _ => none

/-- Format `%m/%d/%Y`. -/
def parse_mdy (l : List Char) : Option ℤ :=
  match splitChar '/' l with
  | [ms, ds, ys] => dateOnlyToEpoch ys ms ds
  | _ => none

/-- Format `%d/%m/%Y`. -/
def parse_dmy (l : List Char) : Option ℤ :=
  match splitChar '/' l with
  | [ds, ms, ys] => dateOnlyToEpoch ys ms ds
  | _ => none

/-- The ten-character `YYYY-MM-DD` head of an ISO string, returning the
fields and the remainder. -/
def parseIsoDate (l : List Char) : Option (Nat × Nat × Nat × List Char) :=
  match l with
  | y1 :: y2 :: y3 :: y4 :: s1 :: m1 :: m2 :: s2 :: d1 :: d2 :: rest =>
    if s1 = '-' ∧ s2 = '-' ∧ allDigits [y1, y2, y3, y4, m1, m2, d1, d2] then
      some (digitsVal [y1, y2, y3, y4], digitsVal [m1, m2], digitsVal [d1, d2], rest)
    else none
  | _ => none

/-- Split a time string at the first `+` or `-` (the start of a UTC offset):
`(base time, sign is plus, offset text)`. -/
def findSignSplit : List Char → Option (List Char × Bool × List Char)
  | [] => none
  | c :: rest =>
    if c = '+' then some ([], true, rest)
    else if c = '-' then some ([], false, rest)
    else
      match findSignSplit rest with
      | none => none
      | some (pre, sg, post) => some (c :: pre, sg, post)

/-- `HH:MM[:SS[.fff | .ffffff]]` with exactly two-digit fields, as
`fromisoformat` requires (pre-3.11 semantics).  Fractional seconds are
truncated: window bounds are whole seconds, and for an integer bound `b`,
`b ≤ t + frac ↔ b ≤ t` and `t + frac < b ↔ t < b` when `0 ≤ frac < 1`,
so every comparison made by the scan is unchanged. -/
def parseIsoTime (l : List Char) : Option Nat :=
  match splitChar ':' l with
  | [hs, mis] => do
    let h ← parseNumField hs 2 2
    let mi ← parseNumField mis 2 2
    if h ≤ 23 ∧ mi ≤ 59 then some (h * 3600 + mi * 60) else none
  | [hs, mis, ssf] => do
    let h ← parseNumField hs 2 2
    let mi ← parseNumField mis 2 2
    match splitChar '.' ssf with
    | [ss] => do
      let s ← parseNumField ss 2 2
      if h ≤ 23 ∧ mi ≤ 59 ∧ s ≤ 59 then some (h * 3600 + mi * 60 + s) else none
    | [ss, f] => do
      let s ← parseNumField ss 2 2
      if (f.length = 3 ∨ f.length = 6) ∧ allDigits f ∧ h ≤ 23 ∧ mi ≤ 59 ∧ s ≤ 59 then
        some (h * 3600 + mi * 60 + s)
      else none
    | _ => none
  | _ => none

/-- A UTC offset `HH:MM` or `HH:MM:SS`, magnitude in seconds. -/
def parseIsoOffset (l : List Char) : Option Nat :=
  match splitChar ':' l with
  | [hs, mis] => do
    let h ← parseNumField hs 2 2
    let mi ← parseNumField mis 2 2
    if h ≤ 23 ∧ mi ≤ 59 then some (h * 3600 + mi * 60) else none
  | [hs, mis, ss] => do
    let h ← parseNumField hs 2 2
    let mi ← parseNumField mis 2 2
    let s ← parseNumField ss 2 2
    if h ≤ 23 ∧ mi ≤ 59 ∧ s ≤ 59 then some (h * 3600 + mi * 60 + s) else none
  | _ => none

/-- `datetime.fromisoformat` (after the `Z -> +00:00` replacement of line
87), restricted to offset-aware forms.  A naive form (date only, or time
with no offset) does parse in Python, but the scan then compares a naive
datetime against the aware window bounds and `TypeError` is raised into the
per-post handler, which skips the post — observationally identical to the
`none` returned here for the one place this parser is used. -/
def parseIsoAware (l : List Char) : Option ℤ := do
  let (y, mo, d, rest) ← parseIsoDate l
  match rest with
  | [] => none
  | _sep :: timePart =>
    match findSignSplit timePart with
    | none => none
    | some (base, isPlus, offsetPart) => do
      let secs ← parseIsoTime base
      let off ← parseIsoOffset offsetPart
      if validYmd y mo d then
        let utc := daysFromCivil y mo d * 86400 + (secs : ℤ)
        some (if isPlus then utc - (off : ℤ) else utc + (off : ℤ))
      else none

/-- Model of `str.replace` for a single-character needle (the source only
replaces `'Z'` with `'+00:00'`). -/
def replaceChar (needle : Char) (repl : List Char) : List Char → List Char
  | [] => []
  | c :: rest =>
    if c = needle then repl ++ replaceChar needle repl rest
    else c :: replaceChar needle repl rest

/-- `parse_datetime` (lines 68-109) in the `raise_on_error=False` mode used
by the scan.  The ISO branch is attempted when the string contains `T`; on
its failure the `strptime` formats are tried in source order (they reject
`T`-containing strings, as in Python). -/
def parse_datetime (date_str : String) : Option ℤ :=
  if date_str = "" then none
  else
    let isoTry :=
      if strContains date_str "T" then
        parseIsoAware (replaceChar 'Z' ['+', '0', '0', ':', '0', '0'] date_str.data)
      else none
    match isoTry with
    | some t => some t
    | none =>
      match parse_ymd_hms date_str.data with
      | some t => some t
      | none =>
        match parse_ymd_dash date_str.data with
        | some t => some t
        | none =>
          match parse_ymd_slash date_str.data with
          | some t => some t
          | none =>
            match parse_mdy date_str.data with
            | some t => some t
            | none => parse_dmy date_str.data

/-- Inverse civil-calendar conversion, for `strftime`. -/
def civilFromDays (z : ℤ) : ℤ × Nat × Nat :=
  let z' := z + 719468
  let era := Int.fdiv z' 146097
  let doe := (Int.fmod z' 146097).toNat
  let yoe := (doe - doe / 1460 + doe / 36524 - doe / 146096) / 365
  let doy := doe - (365 * yoe + yoe / 4 - yoe / 100)
  let mp := (5 * doy + 2) / 153
  let d := doy - (153 * mp + 2) / 5 + 1
  let m := if mp < 10 then mp + 3 else mp - 9
  ((yoe : ℤ) + era * 400 + (if m ≤ 2 then 1 else 0), m, d)

def pad2 (n : Nat) : String := if n < 10 then "0" ++ toString n else toString n

def pad4 (n : Nat) : String :=
  if n < 10 then "000" ++ toString n
  else if n < 100 then "00" ++ toString n
  else if n < 1000 then "0" ++ toString n
  else toString n

/-- `post_date.strftime('%Y-%m-%d %H:%M:%S')` (line 306). -/
def formatDatetime (t : ℤ) : String :=
  let days := Int.fdiv t 86400
  let sod := (Int.fmod t 86400).toNat
  match civilFromDays days with
  | (y, m, d) =>
    pad4 y.toNat ++ "-" ++ pad2 m ++ "-" ++ pad2 d ++ " " ++
      pad2 (sod / 3600) ++ ":" ++ pad2 (sod % 3600 / 60) ++ ":" ++ pad2 (sod % 60)

/- ## Identity Normalizer: `sanitize_filename` (lines 413-427),
   `normalize_substack_url` (lines 140-156) and
   `extract_newsletter_name_from_url` (lines 430-448) -/

/-- The character class of `re.sub(r'[<>:"/\\|?*]', '_', name)`. -/
def filenameBadChars : List Char := ['<', '>', ':', '"', '/', '\\', '|', '?', '*']

/-- Python regex `\s` as an ASCII class (the names sanitized here are ASCII
host names, so the extra Unicode members of `\s` never occur). -/
def pyWhitespace (c : Char) : Bool :=
  c = ' ' || c = '\t' || c = '\n' || c = '\r' || c = '\x0b' || c = '\x0c'

def underscoreOrSpace (c : Char) : Bool := c = '_' || pyWhitespace c

/-- `re.sub(r'[_\s]+', '_', s)`: each maximal run of underscores/whitespace
becomes a single underscore; `prev` records being inside such a run. -/
def collapseRunsAux : Bool → List Char → List Char
  | _, [] => []
  | prev, c :: rest =>
    if underscoreOrSpace c then
      if prev then collapseRunsAux true rest else '_' :: collapseRunsAux true rest
    else c :: collapseRunsAux false rest

/-- Python `str.strip(chars)` over a character predicate. -/
def stripCharsBoth (p : Char → Bool) (l : List Char) : List Char :=
  ((l.dropWhile p).reverse.dropWhile p).reverse

/-- `sanitize_filename` (lines 413-427), step for step: replace unsafe
characters, collapse runs, strip `'_ '` from both ends, then the
length-conditional branch of lines 425-426 — which only right-strips
underscores and never truncates — and the `'unknown'` fallback. -/
def sanitize_filename (name : String) : String :=
  let s1 := name.data.map (fun c => if c ∈ filenameBadChars then '_' else c)
  let s2 := collapseRunsAux false s1
  let s3 := stripCharsBoth (fun c => c = '_' || c = ' ') s2
  let s4 := if 50 < s3.length then (s3.reverse.dropWhile (fun c => c = '_')).reverse else s3
  if s4 = [] then "unknown" else String.mk s4

/-- Split `u` at the first `://`: `(scheme, rest)`.  Approximates `urlparse`
for the http(s) references this program receives (no `?`/`#`; a reference
without `://` has empty scheme and netloc and is all path). -/
def splitSchemeRest (u : String) : Option (String × String) :=
  match splitFirstAux [':', '/', '/'] u.data with
  | none => none
  | some (pre, post) => some (String.mk pre, String.mk post)

def urlScheme (u : String) : String :=
  match splitSchemeRest u with
  | none => ""
  | some (s, _) => s

def urlNetloc (u : String) : String :=
  match splitSchemeRest u with
  | none => ""
  | some (_, rest) => String.mk (rest.data.takeWhile (fun c => c ≠ '/'))

def urlPath (u : String) : String :=
  match splitSchemeRest u with
  | none => u
  | some (_, rest) => String.mk (rest.data.dropWhile (fun c => c ≠ '/'))

/-- `normalize_substack_url` (lines 140-156): strip trailing slashes,
rewrite the `substack.com/@handle` profile form, and cut a `/p/` post path
down to scheme plus host. -/
def normalize_substack_url (url : String) : String :=
  let u := String.mk ((url.data.reverse.dropWhile (fun c => c = '/')).reverse)
  if strContains u "substack.com/@" then
    let username := String.mk ((urlPath u).data.dropWhile (fun c => c = '/' || c = '@'))
    urlScheme u ++ "://" ++ username ++ ".substack.com"
  else if strContains u "/p/" then
    urlScheme u ++ "://" ++ urlNetloc u
  else u

/-- `extract_newsletter_name_from_url` (lines 430-448).  The `except`
branch returning `'unknown'` is unreachable here: every modelled operation
is total. -/
def extract_newsletter_name_from_url (url : String) : String :=
  let normalized := normalize_substack_url url
  let netloc := urlNetloc normalized
  let name :=
    if strContains netloc ".substack.com" then
      let subdomain :=
        match splitFirstAux (String.data ".substack.com") netloc.data with
        | none => netloc
        | some (pre, _) => String.mk pre
      if subdomain = "" then netloc else subdomain
    else netloc
  sanitize_filename name

/-- The per-source checkpoint path used both by
`check_existing_newsletter_file` (line 386) and by `main` (line 646):
`os.path.join('substacks', name + '.csv')` on a POSIX filesystem.  The
source sanitizes the already-sanitized extracted name a second time. -/
def checkpointPath (url : String) : String :=
  "substacks/" ++ sanitize_filename (extract_newsletter_name_from_url url) ++ ".csv"

/- ## Checkpoint Store: `save_posts_to_csv` (lines 350-376),
   `load_existing_posts_from_csv` (lines 398-410),
   `check_existing_newsletter_file` (lines 379-395) -/

/-- A post record as the Python dict: ordered field-name/value pairs.
Scalar values are serialized to the strings `csv.DictWriter` would emit;
Python keeps e.g. `int` objects until write time, but serializing at record
creation is observationally identical because records are only appended,
written, and loaded back as strings. -/
abbrev Row : Type := List (String × String)

/-- A CSV file as its list of rows of cells (quoting/escaping is below the
granularity any claim needs). -/
abbrev CsvFile : Type := List (List String)

/-- The filesystem: a flat map from path to file content. -/
abbrev FS : Type := String → Option CsvFile

/-- The `fieldnames` list of lines 359-365, in source order. -/
def fieldnames : List String :=
  ["newsletter_name", "newsletter_url", "free_subscriber_count",
   "likes", "likes_per_free_subscriber",
   "post_url", "post_title", "post_subtitle", "post_date",
   "author", "word_count",
   "is_paid", "post_id"]

/-- One data row: `DictWriter` looks each field up in the dict
(`restval=''` would fill a missing key; our rows always carry exactly these
keys). -/
def rowCells (r : Row) : List String :=
  fieldnames.map (fun f => (r.lookup f).getD "")

/-- `save_posts_to_csv` (lines 350-376): the file is opened with mode `'w'`
(truncate — the new content replaces any prior content), the header row is
always written, then one row per record.  `ensure_directory` only creates
directories, which the flat path map does not track. -/
def save_posts_to_csv (fs : FS) (posts : List Row) (output_file : String) : FS :=
  fun p => if p = output_file then some (fieldnames :: posts.map rowCells) else fs p

/-- `load_existing_posts_from_csv` (lines 398-410): `DictReader` yields one
dict per data row, pairing the file's header row with the row's cells
(`zip` truncates at the shorter side; files written by `save` always have
equal lengths).  Filesystem read errors are not modelled: reads of the path
map never fail. -/
def load_existing_posts_from_csv (file : CsvFile) : List Row :=
  match file with
  | [] => []
  | header :: rows => rows.map (fun r => header.zip r)

/-- `check_existing_newsletter_file` (lines 379-395): the candidate list
holds only the per-source checkpoint path, and `os.path.exists` accepts
empty files. -/
def check_existing_newsletter_file (fs : FS) (url : String) : Option String :=
  let expected := checkpointPath url
  if (fs expected).isSome then some expected else none

/- ## Window Filter and Paginator: the post loop of
   `fetch_newsletter_posts` (lines 191-333) -/

/-- The metadata dict of one post as read through
`retry_with_backoff(post.get_metadata)`.  Every field except the two date
candidates is stored with the default its `post_data.get(...)` accessor
would substitute for a missing key. -/
structure PostData where
  title : String
  subtitle : String
  post_date : Option String
  created_at : Option String
  publishedBylines : List String
  wordcount : Int
  audience : String
  reaction_count : Int
  id : String
deriving DecidableEq

/-- One element of the `posts` sequence with the oracles for the network
calls the loop may make on it: the `@username` redirect resolution of lines
241-262 and the metadata fetch of lines 266-269.  `meta = RetryResult.ok
none` covers `get_metadata` returning a falsy value. -/
structure PostInput where
  url : String
  redirect : RetryResult String
  meta : RetryResult (Option PostData)
deriving DecidableEq

/-- Line 253: `retry_with_backoff` returns a string both on success (the
wrapped call returns `response.url`) and in its sentinel cases, so the
`isinstance(..., str)` test is always true here and the decision reduces to
`startswith('http')` on whichever string came back. -/
def redirectStr (r : RetryResult String) : String :=
  match r with
  | RetryResult.ok s => s
  | RetryResult.sentinel s => s

def startsWithHttp (s : String) : Bool := listIsPrefixOf (String.data "http") s.data

/-- The URL recorded for the post: the redirect target in the `@username`
flow (the loop rebinds `post = Post(redirected_url)`), else `post.url`. -/
def effectivePostUrl (isUser : Bool) (p : PostInput) : String :=
  if isUser then redirectStr p.redirect else p.url

/-- Line 277, `post_data.get('post_date') or post_data.get('created_at')`,
followed by line 278's falsiness test; `none` means the loop `continue`s. -/
def getDateStr (d : PostData) : Option String :=
  let chosen :=
    match d.post_date with
    | some s => if s = "" then d.created_at else some s
    | none => d.created_at
  match chosen with
  | some s => if s = "" then none else some s
  | none => none

def joinComma : List String → String
  | [] => ""
  | [x] => x
  | x :: y :: rest => x ++ ", " ++ joinComma (y :: rest)

/-- Lines 290-295: join the truthy byline names; empty bylines or no truthy
name falls back to the newsletter name. -/
def authorName (newsletter_name : String) (bylines : List String) : String :=
  if bylines = [] then newsletter_name
  else
    let names := bylines.filter (fun n => n ≠ "")
    if names = [] then newsletter_name else joinComma names

/-- `str()` of the two-decimal float produced by `round(..., 2)`: integer
part, `.0` for a whole value, one fractional digit when the hundredths
digit is zero, else two.  Only applied to `round2` outputs, whose
denominator divides 100. -/
def floatRepr2 (q : ℚ) : String :=
  let c : ℤ := q.num * ((100 : ℤ) / (q.den : ℤ))
  let sign := if c < 0 then "-" else ""
  let a := c.natAbs
  let ip := a / 100
  let fp := a % 100
  if fp = 0 then sign ++ toString ip ++ ".0"
  else if fp % 10 = 0 then sign ++ toString ip ++ "." ++ toString (fp / 10)
  else if fp < 10 then sign ++ toString ip ++ ".0" ++ toString fp
  else sign ++ toString ip ++ "." ++ toString fp

def ratioStr (r : RatioVal) : String :=
  match r with
  | RatioVal.unknownCount => "UNKNOWN"
  | RatioVal.val q => floatRepr2 q

/-- Lines 290-311: the `post_info` dict.  Building it evaluates the
enricher at the `likes_per_free_subscriber` entry (line 302); an exception
raised there aborts the construction — the `Except.error` case, caught by
the per-post handler of line 322. -/
def buildPostInfo (newsletter_name newsletter_url free_subscriber_count post_url : String)
    (d : PostData) (t : ℤ) : Except String Row :=
  match calculate_likes_per_free_subscriber d.reaction_count free_subscriber_count with
  | Except.error e => Except.error e
  | Except.ok ratioV =>
    Except.ok
      [("newsletter_name", newsletter_name),
       ("newsletter_url", newsletter_url),
       ("free_subscriber_count", free_subscriber_count),
       ("likes", toString d.reaction_count),
       ("likes_per_free_subscriber", ratioStr ratioV),
       ("post_url", post_url),
       ("post_title", d.title),
       ("post_subtitle", d.subtitle),
       ("post_date", formatDatetime t),
       ("author", authorName newsletter_name d.publishedBylines),
       ("word_count", toString d.wordcount),
       ("is_paid", if d.audience = "everyone" then "False" else "True"),
       ("post_id", d.id)]

/-- Line 315: `if max_posts and len(filtered_posts) >= max_posts` — Python
truthiness disables the cap for `None` and for `0`. -/
def capHit (max_posts : Option Nat) (newLen : Nat) : Bool :=
  match max_posts with
  | none => false
  | some m => decide (m ≠ 0) && decide (m ≤ newLen)

inductive PostStep where
  | skipPost
  | stopScan
  | retained (r : Row) (stopAfter : Bool)
deriving DecidableEq

/-- The body of `for post in posts` (lines 236-324) for one post, given the
current number of retained posts.  `skipPost` is every `continue` path
(redirect failure, metadata error or falsy value, missing or unparseable
date, too-new post, per-post exception); `stopScan` is the
`elif post_date < from_date: break` of lines 317-320; `retained` carries
the appended record and whether the cap `break` of line 316 fires. -/
def evalPostStep (isUser : Bool) (from_date to_date_inclusive : ℤ) (max_posts : Option Nat)
    (newsletter_name newsletter_url free_subscriber_count : String)
    (curLen : Nat) (p : PostInput) : PostStep :=
  if isUser && !(startsWithHttp (redirectStr p.redirect)) then PostStep.skipPost
  else
    match p.meta with
    | RetryResult.sentinel _ => PostStep.skipPost
    | RetryResult.ok none => PostStep.skipPost
    | RetryResult.ok (some d) =>
      match getDateStr d with
      | none => PostStep.skipPost
      | some ds =>
        match parse_datetime ds with
        | none => PostStep.skipPost
        | some t =>
          if from_date ≤ t ∧ t < to_date_inclusive then
            match buildPostInfo newsletter_name newsletter_url free_subscriber_count
                (effectivePostUrl isUser p) d t with
            | Except.error _ => PostStep.skipPost
            | Except.ok info => PostStep.retained info (capHit max_posts (curLen + 1))
          else if t < from_date then PostStep.stopScan
          else PostStep.skipPost

/-- The whole loop: fold `evalPostStep` over the sequence, accumulating
`filtered_posts`. -/
def processPosts (isUser : Bool) (from_date to_date_inclusive : ℤ) (max_posts : Option Nat)
    (nn nu sc : String) : List PostInput → List Row → List Row
  | [], acc => acc
  | p :: rest, acc =>
    match evalPostStep isUser from_date to_date_inclusive max_posts nn nu sc acc.length p with
    | PostStep.skipPost =>
      processPosts isUser from_date to_date_inclusive max_posts nn nu sc rest acc
    | PostStep.stopScan => acc
    | PostStep.retained info stopAfter =>
      if stopAfter then acc ++ [info]
      else processPosts isUser from_date to_date_inclusive max_posts nn nu sc rest (acc ++ [info])

/- ## Run Orchestrator: `fetch_newsletter_posts` top level and `main`'s
   source loop (lines 606-658) -/

/-- The per-source network oracle: the string outcome of
`get_free_subscriber_count` (total by C10's theorem), the
`retry_with_backoff`-wrapped `newsletter.get_posts` outcome, and
`fetchFault e` for an exception raised anywhere in the body of
`fetch_newsletter_posts` (for example the `Newsletter` constructor), which
the catch-all of lines 331-333 turns into `[]`. -/
structure SourceOracle where
  fetchFault : Option String
  subCount : String
  posts : RetryResult (List PostInput)

/-- `fetch_newsletter_posts` (lines 191-333).  Line 222's `isinstance(posts,
str)` test is the sentinel case; line 226's `if not posts` is the empty
list; `to_date_inclusive = to_date + timedelta(days=1)` is line 233. -/
def fetch_newsletter_posts (o : SourceOracle) (url : String)
    (from_date to_date : ℤ) (max_posts : Option Nat) : List Row :=
  match o.fetchFault with
  | some _ => []
  | none =>
    let nUrl := normalize_substack_url url
    let nName := extract_newsletter_name_from_url nUrl
    match o.posts with
    | RetryResult.sentinel _ => []
    | RetryResult.ok ps =>
      if ps = [] then []
      else
        processPosts (strContains url "substack.com/@") from_date (to_date + 86400)
          max_posts nName nUrl o.subCount ps []

/-- The orchestrator's state: the filesystem, the in-memory aggregate
`all_posts`, and a count of fetch-pipeline invocations — each entered fetch
performs network activity, the skip branch performs none. -/
structure RunState where
  fs : FS
  allPosts : List Row
  netOps : Nat

/-- One iteration of `main`'s source loop (lines 606-658): the skip check
of lines 610-622, else the fetch of line 625, the aggregate extension of
line 633, and the immediate save of line 651 to the per-source checkpoint
(multiple URLs) or to `args.output` (single URL, lines 640-649). -/
def processSource (force_rescrape multiple_urls : Bool) (output : String)
    (from_date to_date : ℤ) (max_posts : Option Nat)
    (o : SourceOracle) (url : String) (st : RunState) : RunState :=
  match (if force_rescrape then none else check_existing_newsletter_file st.fs url) with
  | some existing_file =>
    ⟨st.fs,
     st.allPosts ++ load_existing_posts_from_csv ((st.fs existing_file).getD []),
     st.netOps⟩
  | none =>
    let posts := fetch_newsletter_posts o url from_date to_date max_posts
    let individual_output := if multiple_urls then checkpointPath url else output
    ⟨save_posts_to_csv st.fs posts individual_output,
     st.allPosts ++ posts,
     st.netOps + 1⟩

/-- `main`'s loop over the requested sources, each paired with its network
oracle. -/
def mainLoop (force_rescrape multiple_urls : Bool) (output : String)
    (from_date to_date : ℤ) (max_posts : Option Nat) :
    List (String × SourceOracle) → RunState → RunState
  | [], st => st
  | (url, o) :: rest, st =>
    mainLoop force_rescrape multiple_urls output from_date to_date max_posts rest
      (processSource force_rescrape multiple_urls output from_date to_date max_posts o url st)

/- Concrete fixtures used by the examples and the claim witnesses. -/

def egPostData (ds : String) (likes : Int) : PostData :=
  ⟨"Title", "Sub", some ds, none, ["Alice"], 500, "everyone", likes, "p1"⟩

def egPost (ds : String) (likes : Int) : PostInput :=
  ⟨"https://example.substack.com/p/x", RetryResult.ok "",
   RetryResult.ok (some (egPostData ds likes))⟩

def egFrom : ℤ := 1704067200

def egTo : ℤ := 1706659200

/- Fixtures for the claim witnesses. -/

def rlOracle : Nat → Except String Nat := fun _ => Except.error "HTTP 429 too many requests"

def succOracle : Nat → Except String Nat :=
  fun i => if i < 2 then Except.error "rate limited by upstream" else Except.ok 42

def errOracle : Nat → Except String Nat := fun _ => Except.error "404 not found"

/-- The record the scan builds for `egPost "2024-01-01" 10` with subscriber
count `"1,000"`. -/
def egRowJan1 : Row :=
  [("newsletter_name", "example"), ("newsletter_url", "https://example.substack.com"),
   ("free_subscriber_count", "1,000"), ("likes", "10"),
   ("likes_per_free_subscriber", "1.0"), ("post_url", "https://example.substack.com/p/x"),
   ("post_title", "Title"), ("post_subtitle", "Sub"),
   ("post_date", "2024-01-01 00:00:00"), ("author", "Alice"), ("word_count", "500"),
   ("is_paid", "False"), ("post_id", "p1")]

/-- The record the scan would build for `egPost "2024-02-01" 10`. -/
def egRowFeb1 : Row :=
  [("newsletter_name", "example"), ("newsletter_url", "https://example.substack.com"),
   ("free_subscriber_count", "1,000"), ("likes", "10"),
   ("likes_per_free_subscriber", "1.0"), ("post_url", "https://example.substack.com/p/x"),
   ("post_title", "Title"), ("post_subtitle", "Sub"),
   ("post_date", "2024-02-01 00:00:00"), ("author", "Alice"), ("word_count", "500"),
   ("is_paid", "False"), ("post_id", "p1")]

/-- A checkpoint file with one record, as `save_posts_to_csv` writes it. -/
def egCheckpointFile : CsvFile :=
  [fieldnames,
   ["example", "https://example.substack.com", "1,000", "10", "1.0",
    "https://example.substack.com/p/x", "Title", "Sub", "2024-01-15 00:00:00",
    "Alice", "500", "False", "p1"]]

def egFS : FS := fun p => if p = "substacks/example.csv" then some egCheckpointFile else none

def emptyFS : FS := fun _ => none

def egOracle : SourceOracle := ⟨none, "UNKNOWN", RetryResult.ok []⟩

/-- An oracle whose fetch body raises: the exception is caught inside
`fetch_newsletter_posts`. -/
def egFaultOracle : SourceOracle := ⟨some "boom", "UNKNOWN", RetryResult.ok []⟩

/- ## Executable sanity checks of the embedding (concrete runs of the
   definitions, including the two scenario walkthroughs of the spec) -/

example : calculate_likes_per_free_subscriber 50 "1,000" = Except.ok (RatioVal.val (mkRat 5 1)) := by
  decide

example : calculate_likes_per_free_subscriber 7 "UNKNOWN" = Except.ok RatioVal.unknownCount := by
  decide

example : calculate_likes_per_free_subscriber 7 "12a3" =
    Except.error "Invalid subscriber count: 12a3" := by decide

example : retry_with_backoff (fun _ => (Except.error "HTTP 429" : Except String Nat)) 3 =
    (RetryResult.sentinel "Rate limited", [1, 2]) := by decide

example : retry_with_backoff (fun _ => (Except.error "404 not found" : Except String Nat)) 3 =
    (RetryResult.sentinel "Error: 404 not found", []) := by decide

example : retry_with_backoff (fun _ => (Except.ok 5 : Except String Nat)) 8 =
    (RetryResult.ok 5, []) := by decide

example : parse_datetime "2024-01-15 12:30:05" = some 1705321805 := by decide

example : parse_datetime "2024-01-15" = some 1705276800 := by decide

example : parse_datetime "2024/01/15" = some 1705276800 := by decide

example : parse_datetime "01/15/2024" = some 1705276800 := by decide

example : parse_datetime "15/01/2024" = some 1705276800 := by decide

example : parse_datetime "2024-01-15T12:00:00Z" = some 1705320000 := by decide

example : parse_datetime "2024-01-15T12:00:00.123Z" = some 1705320000 := by decide

example : parse_datetime "2024-01-15T12:00:00+01:00" = some 1705316400 := by decide

example : parse_datetime "" = none := by decide

example : parse_datetime "2024-02-30" = none := by decide

example : parse_datetime "not a date" = none := by decide

example : formatDatetime 1705321805 = "2024-01-15 12:30:05" := by decide

example : formatDatetime 1705276800 = "2024-01-15 00:00:00" := by decide

example : sanitize_filename "My: News/letter  x" = "My_News_letter_x" := by decide

example : sanitize_filename "" = "unknown" := by decide

example : sanitize_filename "___" = "unknown" := by decide

example : (sanitize_filename (String.mk (List.replicate 51 'a'))).length = 51 := by decide

example : normalize_substack_url "https://substack.com/@tucker" =
    "https://tucker.substack.com" := by decide

example : normalize_substack_url "https://example.substack.com/p/post-slug" =
    "https://example.substack.com" := by decide

example : normalize_substack_url "https://example.substack.com/" =
    "https://example.substack.com" := by decide

example : extract_newsletter_name_from_url "https://example.substack.com" = "example" := by
  decide

example : extract_newsletter_name_from_url "https://my.custom.com" = "my.custom.com" := by
  decide

example : checkpointPath "https://example.substack.com" = "substacks/example.csv" := by decide

example : parse_datetime "2024-01-01" = some egFrom := by decide

example : parse_datetime "2024-01-31" = some egTo := by decide

example :
    (processPosts false egFrom (egTo + 86400) (some 100) "example"
      "https://example.substack.com" "1,000"
      [egPost "2024-01-15" 10, egPost "2023-12-31" 5, egPost "2024-02-01" 7] []).length = 1 := by
  decide

example :
    (processPosts false egFrom (egTo + 86400) (some 2) "example"
      "https://example.substack.com" "1,000"
      [egPost "2024-01-20" 1, egPost "2024-01-15" 2, egPost "2024-01-10" 3] []).length = 2 := by
  decide

/- ## Theorems for the claims -/

/-- Every run of the retry loop yields either the wrapped operation's value
or one of the three sentinel shapes; the auxiliary statement is over any
number of remaining iterations. -/
theorem retryAux_classify {α : Type} (attempts : Nat → Except String α) (m : Nat) :
    ∀ r : Nat,
      (∃ v, (retryAux attempts m r).1 = RetryResult.ok v ∧ ∃ i, attempts i = Except.ok v) ∨
      (retryAux attempts m r).1 = RetryResult.sentinel "Rate limited" ∨
      (∃ e, (retryAux attempts m r).1 = RetryResult.sentinel ("Error: " ++ e)) ∨
      (retryAux attempts m r).1 = RetryResult.sentinel "Failed after retries" := by
  intro r
  induction r with
  | zero => right; right; right; rfl
  | succ n ih =>
    simp only [retryAux]
    cases hA : attempts (m - (n + 1)) with
    | ok v => exact Or.inl ⟨v, rfl, ⟨m - (n + 1), hA⟩⟩
    | error e =>
      dsimp only
      by_cases hrl : isRateLimitError e = true
      · rw [if_pos hrl]
        by_cases hn : 0 < n
        · rw [if_pos hn]
          exact ih
        · rw [if_neg hn]
          exact Or.inr (Or.inl rfl)
      · rw [if_neg hrl]
        exact Or.inr (Or.inr (Or.inl ⟨e, rfl⟩))

/-- C10: the backoff executor is total over failures: for every wrapped
operation (modelled by its per-attempt outcomes, a raised exception being an
`Except.error` with the exception's text) and every retry budget, the result
is either a value the operation returned on some attempt, or one of the
string sentinels `Rate limited`, `Error: ...`, or `Failed after retries` —
never a propagated exception. -/
theorem backoff_total_classification {α : Type} (attempts : Nat → Except String α) (m : Nat) :
    (∃ v, (retry_with_backoff attempts m).1 = RetryResult.ok v ∧
      ∃ i, attempts i = Except.ok v) ∨
    (retry_with_backoff attempts m).1 = RetryResult.sentinel "Rate limited" ∨
    (∃ e, (retry_with_backoff attempts m).1 = RetryResult.sentinel ("Error: " ++ e)) ∨
    (retry_with_backoff attempts m).1 = RetryResult.sentinel "Failed after retries" :=
  retryAux_classify attempts m m

/-- When every remaining attempt raises a rate-limit-classified error, the
loop sleeps `min (2 ^ attempt) 60` after each non-final attempt and ends in
the `Rate limited` sentinel. -/
theorem retryAux_all_ratelimited {α : Type} (attempts : Nat → Except String α) (m : Nat) :
    ∀ r : Nat, r ≤ m → 1 ≤ r →
      (∀ i, m - r ≤ i → i < m → ∃ e, attempts i = Except.error e ∧ isRateLimitError e = true) →
      retryAux attempts m r =
        (RetryResult.sentinel "Rate limited",
         (List.range' (m - r) (r - 1)).map (fun i => min (2 ^ i) MAX_BACKOFF_WAIT_TIME)) := by
  intro r
  induction r with
  | zero => omega
  | succ n ih =>
    intro hle h1 hall
    obtain ⟨e, he, hrl⟩ := hall (m - (n + 1)) le_rfl (by omega)
    simp only [retryAux, he]
    rw [if_pos hrl]
    cases n with
    | zero =>
      rw [if_neg (by omega)]
      simp [List.range']
    | succ k =>
      rw [if_pos (by omega)]
      rw [ih (by omega) (by omega) (fun i hi1 hi2 => hall i (by omega) hi2)]
      have hr : List.range' (m - (k + 2)) (k + 1) =
          (m - (k + 2)) :: List.range' (m - (k + 1)) k := by
        have hstart : m - (k + 1) = (m - (k + 2)) + 1 := by omega
        rw [hstart]
        exact List.range'_succ _ _ _
      simp only [Nat.add_sub_cancel, hr, List.map_cons]

/-- When the first `k` attempts are rate-limited and attempt `k` succeeds,
the loop returns the operation's value after `k` sleeps. -/
theorem retryAux_success {α : Type} (attempts : Nat → Except String α) (m : Nat) (k : Nat)
    (v : α) :
    ∀ r : Nat, r ≤ m → m - r ≤ k → k < m → attempts k = Except.ok v →
      (∀ i, m - r ≤ i → i < k → ∃ e, attempts i = Except.error e ∧ isRateLimitError e = true) →
      retryAux attempts m r =
        (RetryResult.ok v,
         (List.range' (m - r) (k - (m - r))).map (fun i => min (2 ^ i) MAX_BACKOFF_WAIT_TIME)) := by
  intro r
  induction r with
  | zero => omega
  | succ n ih =>
    intro hle hk1 hk2 hOk hall
    by_cases hEq : m - (n + 1) = k
    · simp only [retryAux, hEq, hOk]
      have : k - (m - (n + 1)) = 0 := by omega
      rw [hEq] at this
      simp [this]
    · obtain ⟨e, he, hrl⟩ := hall (m - (n + 1)) le_rfl (by omega)
      simp only [retryAux, he]
      rw [if_pos hrl]
      rw [if_pos (by omega)]
      rw [ih (by omega) (by omega) hk2 hOk (fun i hi1 hi2 => hall i (by omega) hi2)]
      have hr : List.range' (m - (n + 1)) (k - (m - (n + 1))) =
          (m - (n + 1)) :: List.range' (m - n) (k - (m - n)) := by
        have hcount : k - (m - (n + 1)) = (k - (m - n)) + 1 := by omega
        have hstart : m - n = (m - (n + 1)) + 1 := by omega
        rw [hcount, hstart]
        exact List.range'_succ _ _ _
      simp only [hr, List.map_cons]

/-- C5: the backoff policy.  (1) When every one of the 8 attempts fails with
a rate-limit-classified error, the executor sleeps `min (2 ^ attempt, 60)`
seconds after each of the first 7 (zero-indexed) attempts — the schedule
`[1, 2, 4, 8, 16, 32, 60]` — and returns the `Rate limited` sentinel
instead of throwing.  (2) When the first `k < 8` attempts are rate-limited
and attempt `k` returns a value, that value is returned after exactly the
first `k` sleeps of that schedule.  (3) A failure not classified as
rate-limiting is not retried: the executor immediately returns the sentinel
wrapping the error description, with no sleeps. -/
theorem backoff_policy {α : Type} (attempts : Nat → Except String α) :
    ((∀ i, i < DEFAULT_MAX_RETRIES →
        ∃ e, attempts i = Except.error e ∧ isRateLimitError e = true) →
      retry_with_backoff attempts DEFAULT_MAX_RETRIES =
        (RetryResult.sentinel "Rate limited", [1, 2, 4, 8, 16, 32, 60]))
    ∧ (∀ k v, k < DEFAULT_MAX_RETRIES → attempts k = Except.ok v →
        (∀ i, i < k → ∃ e, attempts i = Except.error e ∧ isRateLimitError e = true) →
        retry_with_backoff attempts DEFAULT_MAX_RETRIES =
          (RetryResult.ok v,
           (List.range k).map (fun i => min (2 ^ i) MAX_BACKOFF_WAIT_TIME)))
    ∧ (∀ e, isRateLimitError e = false → attempts 0 = Except.error e →
        retry_with_backoff attempts DEFAULT_MAX_RETRIES =
          (RetryResult.sentinel ("Error: " ++ e), [])) := by
  refine ⟨fun hall => ?_, fun k v hk hOk hall => ?_, fun e hrl hA => ?_⟩
  · rw [retry_with_backoff,
      retryAux_all_ratelimited attempts DEFAULT_MAX_RETRIES DEFAULT_MAX_RETRIES le_rfl
        (by decide) (fun i hi1 hi2 => hall i hi2)]
    rfl
  · rw [retry_with_backoff,
      retryAux_success attempts DEFAULT_MAX_RETRIES k v DEFAULT_MAX_RETRIES le_rfl
        (by omega) hk hOk (fun i hi1 hi2 => hall i hi2)]
    congr 1
    simp [List.range_eq_range']
  · rw [retry_with_backoff]
    simp only [retryAux, DEFAULT_MAX_RETRIES]
    norm_num
    rw [hA]
    dsimp only
    rw [if_neg (by simp [hrl])]

/-- Witness for C5 at three concrete oracles. -/
theorem backoff_policy_witness :
    retry_with_backoff rlOracle DEFAULT_MAX_RETRIES =
      (RetryResult.sentinel "Rate limited", [1, 2, 4, 8, 16, 32, 60])
    ∧ retry_with_backoff succOracle DEFAULT_MAX_RETRIES = (RetryResult.ok 42, [1, 2])
    ∧ retry_with_backoff errOracle DEFAULT_MAX_RETRIES =
      (RetryResult.sentinel "Error: 404 not found", []) := by
  refine ⟨(backoff_policy rlOracle).1 ?_, ?_,
    (backoff_policy errOracle).2.2 "404 not found" (by decide) rfl⟩
  · intro i hi
    exact ⟨"HTTP 429 too many requests", rfl, by decide⟩
  · have h := (backoff_policy succOracle).2.1 2 42 (by decide) rfl ?_
    · exact h
    · intro i hi
      refine ⟨"rate limited by upstream", ?_, by decide⟩
      simp only [succOracle, if_pos hi]

/-- C4 counterexample: the subscriber-count string `"0"` parses as a number
after removing commas, yet the enricher produces no ratio — the division
`likes / 0.0` raises `ZeroDivisionError`, so the claim's numeric case fails
at this input. -/
theorem zero_subscriber_count_ce :
    pyFloat (stripCommas "0") = some (mkRat 0 1)
    ∧ calculate_likes_per_free_subscriber 1 "0" = Except.error "float division by zero" := by
  exact ⟨by decide, by decide⟩

/-- C4 (amended): for every likes value and subscriber-count string, the
`UNKNOWN` sentinel propagates to an `UNKNOWN` ratio with no error, and when
the comma-stripped string parses as a nonzero number `q`, the ratio is
`round(100 * likes / q, 2)`; a string parsing to zero instead raises a
division error. -/
theorem ratio_rule_amended (likes : ℤ) (s : String) :
    (s = "UNKNOWN" →
      calculate_likes_per_free_subscriber likes s = Except.ok RatioVal.unknownCount)
    ∧ (∀ q : ℚ, pyFloat (stripCommas s) = some q → q ≠ 0 →
        calculate_likes_per_free_subscriber likes s =
          Except.ok (RatioVal.val (round2 (100 * ((likes : ℚ) / q)))))
    ∧ (∀ q : ℚ, pyFloat (stripCommas s) = some q → q = 0 →
        calculate_likes_per_free_subscriber likes s =
          Except.error "float division by zero") := by
  refine ⟨fun h => ?_, fun q hq hq0 => ?_, fun q hq hq0 => ?_⟩
  · rw [calculate_likes_per_free_subscriber, if_pos h]
  · have hne : s ≠ "UNKNOWN" := by
      intro h
      rw [h] at hq
      have : pyFloat (stripCommas "UNKNOWN") = none := by decide
      rw [this] at hq
      exact Option.noConfusion hq
    rw [calculate_likes_per_free_subscriber, if_neg hne]
    simp only [hq]
    rw [if_neg hq0]
    rw [ratio_formula_eq likes q hq0]
  · have hne : s ≠ "UNKNOWN" := by
      intro h
      rw [h] at hq
      have : pyFloat (stripCommas "UNKNOWN") = none := by decide
      rw [this] at hq
      exact Option.noConfusion hq
    rw [calculate_likes_per_free_subscriber, if_neg hne]
    simp only [hq]
    rw [if_pos hq0]

/-- Witness for C4's amended rule at concrete inputs. -/
theorem ratio_rule_amended_witness :
    calculate_likes_per_free_subscriber 50 "UNKNOWN" = Except.ok RatioVal.unknownCount
    ∧ calculate_likes_per_free_subscriber 50 "1,000" =
        Except.ok (RatioVal.val (round2 (100 * ((50 : ℤ) : ℚ) / mkRat 1000 1))) := by
  refine ⟨(ratio_rule_amended 50 "UNKNOWN").1 rfl, ?_⟩
  have h := (ratio_rule_amended 50 "1,000").2.1 (mkRat 1000 1) (by decide) (by decide)
  rw [h]
  rw [mul_div_assoc]

/-- C8: a subscriber-count string other than `UNKNOWN` that does not parse
as a number after removing commas makes the enricher raise a value error —
no default is substituted — and the same error is what the post-record
construction propagates to the per-post handler.  The enricher is invoked
directly (line 302), not through `retry_with_backoff`, so this failure is
never retried. -/
theorem invalid_subscriber_count_raises (likes : ℤ) (s : String)
    (h1 : s ≠ "UNKNOWN") (h2 : pyFloat (stripCommas s) = none) :
    calculate_likes_per_free_subscriber likes s =
      Except.error ("Invalid subscriber count: " ++ stripCommas s)
    ∧ ∀ (nn nu pu : String) (d : PostData) (t : ℤ), d.reaction_count = likes →
        buildPostInfo nn nu s pu d t =
          Except.error ("Invalid subscriber count: " ++ stripCommas s) := by
  have hmain : calculate_likes_per_free_subscriber likes s =
      Except.error ("Invalid subscriber count: " ++ stripCommas s) := by
    rw [calculate_likes_per_free_subscriber, if_neg h1]
    simp only [h2]
  refine ⟨hmain, fun nn nu pu d t hd => ?_⟩
  unfold buildPostInfo
  rw [hd, hmain]

/-- Witness for C8 at a concrete unparseable count. -/
theorem invalid_subscriber_count_raises_witness :
    calculate_likes_per_free_subscriber 3 "12a3" =
      Except.error ("Invalid subscriber count: " ++ stripCommas "12a3")
    ∧ buildPostInfo "example" "https://example.substack.com" "12a3"
        "https://example.substack.com/p/x" (egPostData "2024-01-15" 3) 1705276800 =
      Except.error ("Invalid subscriber count: " ++ stripCommas "12a3") := by
  refine ⟨(invalid_subscriber_count_raises 3 "12a3" (by decide) (by decide)).1,
    (invalid_subscriber_count_raises 3 "12a3" (by decide) (by decide)).2 "example"
      "https://example.substack.com" "https://example.substack.com/p/x"
      (egPostData "2024-01-15" 3) 1705276800 rfl⟩

/-- C7 (code bug): `sanitize_filename` does not enforce the 50-character
cap.  On a 51-character alphanumeric name the length branch (lines 425-426)
only strips trailing underscores — it never truncates — so the full
51-character name is returned unchanged, contradicting the claim's `≤ 50`
bound and the function's own length-limiting comment.  The claim's other
clauses (unsafe-character replacement, run collapse, trimming, `unknown`
fallback) are not at issue on this input. -/
theorem sanitize_length_cap_bug :
    sanitize_filename (String.mk (List.replicate 51 'a')) = String.mk (List.replicate 51 'a')
    ∧ 50 < (sanitize_filename (String.mk (List.replicate 51 'a'))).length := by
  exact ⟨by decide, by decide⟩

/-- C9: `save_posts_to_csv` writes in full-replace mode: whatever the prior
filesystem contents, the written file is exactly a header row of the 13
schema fields in their fixed order followed by one row per record — `fs` is
arbitrary and absent from the right-hand sides — and an empty record list
still produces the header-only file. -/
theorem save_csv_header_full_replace (fs : FS) (posts : List Row) (out : String) :
    save_posts_to_csv fs posts out out = some (fieldnames :: posts.map rowCells)
    ∧ ((save_posts_to_csv fs posts out out).getD []).length = posts.length + 1
    ∧ fieldnames.length = 13
    ∧ save_posts_to_csv fs [] out out = some [fieldnames] := by
  refine ⟨?_, ?_, by decide, ?_⟩
  · simp [save_posts_to_csv]
  · simp [save_posts_to_csv]
  · simp [save_posts_to_csv]

/-- C2: during one source's scan, a post whose parsed timestamp is strictly
earlier than the window start terminates the scan: the result is exactly
the records retained so far, and the tail of the sequence is universally
quantified — no subsequent post is fetched, parsed, or evaluated. -/
theorem early_stop_halts_scan (isUser : Bool) (fromD toInc : ℤ) (mp : Option Nat)
    (nn nu sc : String) (p : PostInput) (rest : List PostInput) (acc : List Row)
    (d : PostData) (ds : String) (t : ℤ)
    (hpass : (isUser && !(startsWithHttp (redirectStr p.redirect))) = false)
    (hm : p.meta = RetryResult.ok (some d))
    (hds : getDateStr d = some ds)
    (ht : parse_datetime ds = some t)
    (hlt : t < fromD) :
    processPosts isUser fromD toInc mp nn nu sc (p :: rest) acc = acc := by
  have hcond : ¬((isUser && !(startsWithHttp (redirectStr p.redirect))) = true) := by
    simp [hpass]
  have hstep : evalPostStep isUser fromD toInc mp nn nu sc acc.length p =
      PostStep.stopScan := by
    unfold evalPostStep
    rw [if_neg hcond]
    simp only [hm, hds, ht]
    rw [if_neg (fun hc => absurd hc.1 (not_le.mpr hlt)), if_pos hlt]
  unfold processPosts
  rw [hstep]

/-- Witness for C2: with the pre-window post first, the scan returns no
records even though an in-window post sits later in the same sequence. -/
theorem early_stop_halts_scan_witness :
    processPosts false egFrom (egTo + 86400) (some 100) "example"
      "https://example.substack.com" "1,000"
      (egPost "2023-12-31" 5 :: [egPost "2024-01-15" 10]) [] = [] := by
  exact early_stop_halts_scan false egFrom (egTo + 86400) (some 100) "example"
    "https://example.substack.com" "1,000" (egPost "2023-12-31" 5)
    [egPost "2024-01-15" 10] [] (egPostData "2023-12-31" 5) "2023-12-31" 1703980800
    (by decide) rfl (by decide) (by decide) (by decide)

/-- C6: an evaluated post (redirect passed, metadata present, date parsed,
record built) is retained if and only if its parsed timestamp `t` satisfies
`from ≤ t < to + one day`; in particular a post dated exactly at the window
start is retained, a post dated exactly one day past the window end (after
the inclusive extension) is skipped, and a retained post's record is
appended to the accumulated results. -/
theorem window_membership_boundary (isUser : Bool) (fromD toD : ℤ) (mp : Option Nat)
    (nn nu sc : String) (p : PostInput) (rest : List PostInput) (acc : List Row)
    (d : PostData) (ds : String) (t : ℤ) (info : Row)
    (hw : fromD < toD)
    (hpass : (isUser && !(startsWithHttp (redirectStr p.redirect))) = false)
    (hm : p.meta = RetryResult.ok (some d))
    (hds : getDateStr d = some ds)
    (ht : parse_datetime ds = some t)
    (hb : buildPostInfo nn nu sc (effectivePostUrl isUser p) d t = Except.ok info) :
    ((fromD ≤ t ∧ t < toD + 86400) ↔
      ∃ b, evalPostStep isUser fromD (toD + 86400) mp nn nu sc acc.length p =
        PostStep.retained info b)
    ∧ (t = fromD →
        ∃ b, evalPostStep isUser fromD (toD + 86400) mp nn nu sc acc.length p =
          PostStep.retained info b)
    ∧ (t = toD + 86400 →
        evalPostStep isUser fromD (toD + 86400) mp nn nu sc acc.length p = PostStep.skipPost)
    ∧ ((fromD ≤ t ∧ t < toD + 86400) →
        processPosts isUser fromD (toD + 86400) mp nn nu sc (p :: rest) acc = acc ++ [info]
        ∨ processPosts isUser fromD (toD + 86400) mp nn nu sc (p :: rest) acc =
            processPosts isUser fromD (toD + 86400) mp nn nu sc rest (acc ++ [info])) := by
  have hcond : ¬((isUser && !(startsWithHttp (redirectStr p.redirect))) = true) := by
    simp [hpass]
  have hstep : ∀ cur : Nat, evalPostStep isUser fromD (toD + 86400) mp nn nu sc cur p =
      (if fromD ≤ t ∧ t < toD + 86400 then PostStep.retained info (capHit mp (cur + 1))
       else if t < fromD then PostStep.stopScan else PostStep.skipPost) := by
    intro cur
    unfold evalPostStep
    rw [if_neg hcond]
    simp only [hm, hds, ht, hb]
  refine ⟨⟨fun hin => ?_, fun hex => ?_⟩, fun hfrom => ?_, fun htop => ?_, fun hin => ?_⟩
  · exact ⟨capHit mp (acc.length + 1), by rw [hstep acc.length, if_pos hin]⟩
  · obtain ⟨b, hbstep⟩ := hex
    by_contra hnin
    rw [hstep acc.length, if_neg hnin] at hbstep
    by_cases hlt : t < fromD
    · rw [if_pos hlt] at hbstep
      exact PostStep.noConfusion hbstep
    · rw [if_neg hlt] at hbstep
      exact PostStep.noConfusion hbstep
  · refine ⟨capHit mp (acc.length + 1), ?_⟩
    rw [hstep acc.length, if_pos ⟨le_of_eq hfrom.symm, by omega⟩]
  · rw [hstep acc.length, if_neg (fun hc => absurd hc.2 (by omega)),
      if_neg (by omega)]
  · simp only [processPosts]
    rw [hstep acc.length, if_pos hin]
    by_cases hcap : capHit mp (acc.length + 1) = true
    · rw [hcap]
      left
      rfl
    · rw [Bool.not_eq_true] at hcap
      rw [hcap]
      right
      rfl

/-- Witness for C6: the boundary posts at the window start and at one day
past the window end, with the retained record written out in full. -/
theorem window_membership_boundary_witness :
    (∃ b, evalPostStep false egFrom (egTo + 86400) (some 100) "example"
        "https://example.substack.com" "1,000" 0 (egPost "2024-01-01" 10) =
      PostStep.retained egRowJan1 b)
    ∧ evalPostStep false egFrom (egTo + 86400) (some 100) "example"
        "https://example.substack.com" "1,000" 0 (egPost "2024-02-01" 10) =
      PostStep.skipPost := by
  refine ⟨?_, ?_⟩
  · exact (window_membership_boundary false egFrom egTo (some 100) "example"
      "https://example.substack.com" "1,000" (egPost "2024-01-01" 10) [] []
      (egPostData "2024-01-01" 10) "2024-01-01" egFrom egRowJan1 (by decide) (by decide)
      rfl (by decide) (by decide) (by decide)).2.1 rfl
  · exact (window_membership_boundary false egFrom egTo (some 100) "example"
      "https://example.substack.com" "1,000" (egPost "2024-02-01" 10) [] []
      (egPostData "2024-02-01" 10) "2024-02-01" (egTo + 86400) egRowFeb1 (by decide)
      (by decide) rfl (by decide) (by decide) (by decide)).2.2.1 rfl

/-- C1: when a source's checkpoint file exists and force-rescrape is off,
the orchestrator performs no fetch for that source — the oracle is never
consulted, the network-operation count and the filesystem are unchanged —
it appends exactly the records loaded from the checkpoint file to the
in-memory aggregate, and the run moves on to the next source. -/
theorem checkpoint_skip_no_fetch (multi : Bool) (output : String) (fromD toD : ℤ)
    (mp : Option Nat) (o : SourceOracle) (url : String) (st : RunState) (f : String)
    (rest : List (String × SourceOracle))
    (h : check_existing_newsletter_file st.fs url = some f) :
    processSource false multi output fromD toD mp o url st =
      ⟨st.fs, st.allPosts ++ load_existing_posts_from_csv ((st.fs f).getD []), st.netOps⟩
    ∧ mainLoop false multi output fromD toD mp ((url, o) :: rest) st =
        mainLoop false multi output fromD toD mp rest
          ⟨st.fs, st.allPosts ++ load_existing_posts_from_csv ((st.fs f).getD []), st.netOps⟩ := by
  have h1 : processSource false multi output fromD toD mp o url st =
      ⟨st.fs, st.allPosts ++ load_existing_posts_from_csv ((st.fs f).getD []), st.netOps⟩ := by
    unfold processSource
    simp only [if_neg (Bool.false_ne_true), h]
  refine ⟨h1, ?_⟩
  simp only [mainLoop, h1]

/-- Witness for C1 on a concrete filesystem holding one checkpoint. -/
theorem checkpoint_skip_no_fetch_witness :
    check_existing_newsletter_file egFS "https://example.substack.com" =
      some "substacks/example.csv"
    ∧ processSource false true "posts.csv" egFrom egTo (some 31) egOracle
        "https://example.substack.com" ⟨egFS, [], 0⟩ =
      ⟨egFS, load_existing_posts_from_csv egCheckpointFile, 0⟩ := by
  refine ⟨by decide, ?_⟩
  exact (checkpoint_skip_no_fetch true "posts.csv" egFrom egTo (some 31) egOracle
    "https://example.substack.com" ⟨egFS, [], 0⟩ "substacks/example.csv" [] (by decide)).1

/-- C3 counterexample: a fault raised while fetching a source's posts does
not leave the source unprocessed.  The fault is caught inside
`fetch_newsletter_posts` (line 331), the fetch yields `[]`, and `main` then
writes a header-only checkpoint for that source — so a checkpoint file IS
written for a faulted source, contrary to the claim. -/
theorem fetch_fault_writes_checkpoint_ce :
    (processSource false true "posts.csv" egFrom egTo (some 31) egFaultOracle
        "https://example.substack.com" ⟨emptyFS, [], 0⟩).fs "substacks/example.csv" =
      some [fieldnames] := by decide

/-- C3 (amended): a fault raised while fetching or filtering a source's
posts is caught inside `fetch_newsletter_posts` and yields an empty post
list; the orchestrator then writes an empty (header-only) checkpoint for
that source, leaves the aggregate unchanged, and continues with the next
source — no per-source fault aborts the run.  (The fault is reported
through the unmodelled logging collaborator.) -/
theorem fetch_fault_empty_checkpoint (output : String) (fromD toD : ℤ) (mp : Option Nat)
    (o : SourceOracle) (url : String) (st : RunState) (e : String)
    (rest : List (String × SourceOracle))
    (hf : o.fetchFault = some e)
    (hskip : check_existing_newsletter_file st.fs url = none) :
    fetch_newsletter_posts o url fromD toD mp = []
    ∧ processSource false true output fromD toD mp o url st =
        ⟨save_posts_to_csv st.fs [] (checkpointPath url), st.allPosts, st.netOps + 1⟩
    ∧ (processSource false true output fromD toD mp o url st).fs (checkpointPath url) =
        some [fieldnames]
    ∧ mainLoop false true output fromD toD mp ((url, o) :: rest) st =
        mainLoop false true output fromD toD mp rest
          (processSource false true output fromD toD mp o url st) := by
  have hfetch : fetch_newsletter_posts o url fromD toD mp = [] := by
    unfold fetch_newsletter_posts
    rw [hf]
  have h2 : processSource false true output fromD toD mp o url st =
      ⟨save_posts_to_csv st.fs [] (checkpointPath url), st.allPosts, st.netOps + 1⟩ := by
    unfold processSource
    simp only [if_neg (Bool.false_ne_true), hskip]
    simp only [hfetch, if_pos rfl, List.append_nil]
    rfl
  refine ⟨hfetch, h2, ?_, ?_⟩
  · rw [h2]
    simp [save_posts_to_csv]
  · simp only [mainLoop]

/-- Witness for C3's amended behavior at a concrete faulting source. -/
theorem fetch_fault_empty_checkpoint_witness :
    fetch_newsletter_posts egFaultOracle "https://example.substack.com" egFrom egTo
      (some 31) = []
    ∧ processSource false true "posts.csv" egFrom egTo (some 31) egFaultOracle
        "https://example.substack.com" ⟨emptyFS, [], 0⟩ =
      ⟨save_posts_to_csv emptyFS []
        (checkpointPath "https://example.substack.com"), [], 1⟩ := by
  have h := fetch_fault_empty_checkpoint "posts.csv" egFrom egTo (some 31) egFaultOracle
    "https://example.substack.com" ⟨emptyFS, [], 0⟩ "boom" [] rfl (by decide)
  exact ⟨h.1, h.2.1⟩
